import Mathlib

/-!
# Gateway status reconciliation (`status_process.go`)

A shallow embedding of the per-update pipeline `updateGateway` and of the functions it
calls, followed by theorems about them.

Modelling conventions.

* Coordinates and distances are `float64` in the source. They are embedded as rationals:
  the code only compares them (`<`, `>`, `==`) against literals and copies them, and on
  finite floats those comparisons agree with the comparisons of the rationals they denote.
* `time.Time` values are embedded as integers, the number of nanoseconds since the Unix
  epoch. `time.Unix (t / 1e9) (t % 1e9)` is the instant `t`, and `a.After b` is `b < a`.
  The zero `time.Time`, which a new row has as last-heard time, lies before every `int64`
  nanosecond count. The store is taken to return a time as it was written; every time in the
  samples below is a whole number of microseconds.
* The relational store behind `db` is a record of tables, each a list of rows in primary-key
  order, with a counter for each serial primary key. A query by a struct value goes through
  a WHERE clause built from the non-blank fields of the struct, so a blank identifier
  constrains nothing (`whereMatches`); a query by primary key selects the rows with that
  `ID`; and a struct `Update` writes exactly the non-blank fields of its argument to the rows
  with its `ID`. Store calls succeed, so the error branches of the source are not taken.
* A `sync.Map` is an association list; `Load` is a lookup and `Store` replaces the binding.
* `haversine.Distance` belongs to an external library; its kilometre result is a parameter
  `km` of the functions that call it.
* `updateGateway` runs to completion before the next call starts; the worker pool is not
  modelled.
-/

namespace GatewayUpdate

/-! ## Data model -/

/-- The update record `types.TtnMapperGateway`, restricted to the fields the pipeline reads.
`Time` is an `int64` count of nanoseconds. -/
structure TtnMapperGateway where
  NetworkId : String
  GatewayId : String
  Time : Int
  GatewayEui : String
  Description : String
  Latitude : ℚ
  Longitude : ℚ
  Altitude : Int
  LocationAccuracy : Int
  LocationSource : String
deriving DecidableEq

/-- A row of the `gateways` table, `types.Gateway`. Pointer fields are options. -/
structure Gateway where
  ID : Nat
  NetworkId : String
  GatewayId : String
  GatewayEui : Option String
  Description : Option String
  Latitude : Option ℚ
  Longitude : Option ℚ
  Altitude : Option Int
  LocationAccuracy : Option Int
  LocationSource : Option String
  LastHeard : Int
deriving DecidableEq

/-- A row of the `gateway_locations` table, `types.GatewayLocation`. -/
structure GatewayLocation where
  ID : Nat
  NetworkId : String
  GatewayId : String
  InstalledAt : Int
  Latitude : ℚ
  Longitude : ℚ
deriving DecidableEq

/-- A row of the `gateway_location_forces` table, `types.GatewayLocationForce`. -/
structure GatewayLocationForce where
  ID : Nat
  NetworkId : String
  GatewayId : String
  Latitude : ℚ
  Longitude : ℚ
deriving DecidableEq

/-- The key of the identity cache, `types.GatewayIndexer`. -/
structure GatewayIndexer where
  NetworkId : String
  GatewayId : String
deriving DecidableEq

/-- The zero value of `time.Time` (1 January of year 1, UTC) in nanoseconds since the epoch. -/
def zeroTime : Int := -62135596800 * 1000000000

/-- The store, the two process-wide caches and the three counters. `gatewaySeq` and
`gatewayLocationSeq` are the last primary keys handed out by the two serial columns. -/
structure State where
  gateways : List Gateway
  gatewaySeq : Nat
  gatewayLocations : List GatewayLocation
  gatewayLocationSeq : Nat
  gatewayLocationForces : List GatewayLocationForce
  gatewayDbIdCache : List (GatewayIndexer × Nat)
  gatewayLastHeardCache : List (Nat × Int)
  processedGateways : Nat
  newGateways : Nat
  movedGateways : Nat
deriving DecidableEq

/-! ## Caches (`sync.Map`) -/

/-- The call `m.Load(k)`. -/
def cacheLoad {κ ν : Type} [DecidableEq κ] (m : List (κ × ν)) (k : κ) : Option ν :=
  (m.find? (fun e => decide (e.1 = k))).map Prod.snd

/-- The call `m.Store(k, v)`. -/
def cacheStore {κ ν : Type} [DecidableEq κ] (m : List (κ × ν)) (k : κ) (v : ν) : List (κ × ν) :=
  (k, v) :: m.filter (fun e => !decide (e.1 = k))

/-! ## Store access -/

/-- A freshly inserted `gateways` row: only the key and the identifiers are set, the
pointer columns are null and `LastHeard` is the zero time. -/
def newGatewayRow (id : Nat) (networkId gatewayId : String) : Gateway :=
  { ID := id, NetworkId := networkId, GatewayId := gatewayId, GatewayEui := none,
    Description := none, Latitude := none, Longitude := none, Altitude := none,
    LocationAccuracy := none, LocationSource := none, LastHeard := zeroTime }

/-- The WHERE clause that gorm builds from a struct that carries the two identifiers: a row
has to agree with each identifier that is not blank, and a blank identifier is left out of
the clause. -/
def whereMatches (networkId gatewayId rowNetworkId rowGatewayId : String) : Bool :=
  decide ((networkId = "" ∨ rowNetworkId = networkId) ∧ (gatewayId = "" ∨ rowGatewayId = gatewayId))

/-- The call `db.FirstOrCreate(&gatewayDb, &gatewayDb)` on a struct that carries the two
identifiers: the first row the WHERE clause admits, or else a new row with the next primary
key and the identifiers as given. -/
def dbFirstOrCreateGateway (s : State) (networkId gatewayId : String) : Gateway × State :=
  match s.gateways.find? (fun g => whereMatches networkId gatewayId g.NetworkId g.GatewayId) with
  | some g => (g, s)
  | none =>
    let g := newGatewayRow (s.gatewaySeq + 1) networkId gatewayId
    (g, { s with gateways := s.gateways ++ [g], gatewaySeq := s.gatewaySeq + 1 })

/-- The call `db.First(&gatewayDb, gatewayDbId)` on `gatewayDb := types.Gateway{ID: gatewayDbId}`:
the row with that key, or the struct as it was when there is none. -/
def dbFirstGatewayById (s : State) (gatewayDbId : Nat) : Gateway :=
  match s.gateways.find? (fun g => decide (g.ID = gatewayDbId)) with
  | some g => g
  | none => newGatewayRow gatewayDbId "" ""

/-- The call `db.Model(&pgGateway).Update(pgGateway)`: the fields set in `pgGateway`,
given as `f`, are written to the rows whose key is `pgGateway.ID`. -/
def dbUpdateGateway (s : State) (id : Nat) (f : Gateway → Gateway) : State :=
  { s with gateways := s.gateways.map (fun g => if g.ID = id then f g else g) }

/-- Of two location rows the one that `ORDER BY installed_at DESC, id ASC` puts first: the
later installed one, and of two installed at the same time the one with the smaller key. -/
def laterLocation (b r : GatewayLocation) : GatewayLocation :=
  if b.InstalledAt < r.InstalledAt ∨ (b.InstalledAt = r.InstalledAt ∧ r.ID < b.ID) then r else b

/-- The row that `ORDER BY installed_at DESC, id ASC LIMIT 1` selects among the rows that
the WHERE clause of the two identifiers admits. -/
def dbLastLocation (networkId gatewayId : String) (rows : List GatewayLocation) :
    Option GatewayLocation :=
  match rows.filter (fun r => whereMatches networkId gatewayId r.NetworkId r.GatewayId) with
  | [] => none
  | r :: rest => some (rest.foldl laterLocation r)

/-! ## The functions of `status_process.go` -/

/-- Source `getGatewayDbId` (lines 178-196): the surrogate key of the update's identity, from the
identity cache or else from a get-or-create on the store, which then fills the cache. -/
def getGatewayDbId (s : State) (gateway : TtnMapperGateway) : Nat × State :=
  let gatewayIndexer : GatewayIndexer := ⟨gateway.NetworkId, gateway.GatewayId⟩
  match cacheLoad s.gatewayDbIdCache gatewayIndexer with
  | some dbId => (dbId, s)
  | none =>
    let r := dbFirstOrCreateGateway s gateway.NetworkId gateway.GatewayId
    (r.1.ID, { r.2 with gatewayDbIdCache := cacheStore r.2.gatewayDbIdCache gatewayIndexer r.1.ID })

/-- Source `isCoordinatesForced` (lines 198-206): the first force row that the WHERE clause of
the update's identifiers admits; the flag is whether its key is non-zero. Without a row the
struct keeps key 0. -/
def isCoordinatesForced (s : State) (gateway : TtnMapperGateway) : Bool × GatewayLocationForce :=
  let forcedCoords : GatewayLocationForce :=
    match s.gatewayLocationForces.find?
        (fun f => whereMatches gateway.NetworkId gateway.GatewayId f.NetworkId f.GatewayId) with
    | some f => f
    | none => ⟨0, gateway.NetworkId, gateway.GatewayId, 0, 0⟩
  if forcedCoords.ID ≠ 0 then (true, forcedCoords) else (false, forcedCoords)

/-- Source `coordinatesValid` (lines 208-242). -/
def coordinatesValid (gateway : TtnMapperGateway) : Bool :=
  if |gateway.Latitude| < 1 ∧ |gateway.Longitude| < 1 then false
  else if |gateway.Latitude| > 90 then false
  else if |gateway.Longitude| > 180 then false
  else if gateway.Latitude = 52.0 ∧ gateway.Longitude = 6.0 then false
  else if gateway.Latitude = 10.0 ∧ gateway.Longitude = 20.0 then false
  else if gateway.Latitude = 50.008724 ∧ gateway.Longitude = 36.215805 then false
  else true

/-- Source `getGatewayLastLocation` (lines 244-249): the most recently installed location row
that the WHERE clause of the update's identifiers admits, or the query struct itself (key 0)
when there is none. -/
def getGatewayLastLocation (s : State) (gateway : TtnMapperGateway) : GatewayLocation :=
  match dbLastLocation gateway.NetworkId gateway.GatewayId s.gatewayLocations with
  | some r => r
  | none => ⟨0, gateway.NetworkId, gateway.GatewayId, zeroTime, 0, 0⟩

/-- Source `insertNewLocationForGateway` (lines 251-260). -/
def insertNewLocationForGateway (s : State) (gateway : TtnMapperGateway) (installedAt : Int) :
    State :=
  let newLocation : GatewayLocation :=
    { ID := s.gatewayLocationSeq + 1, NetworkId := gateway.NetworkId,
      GatewayId := gateway.GatewayId, InstalledAt := installedAt,
      Latitude := gateway.Latitude, Longitude := gateway.Longitude }
  { s with gatewayLocations := s.gatewayLocations ++ [newLocation],
           gatewayLocationSeq := s.gatewayLocationSeq + 1 }

/-- Source `updateGatewayLocation` (lines 262-282). -/
def updateGatewayLocation (s : State) (gatewayDbId : Nat) (lastHeard : Int)
    (gateway : TtnMapperGateway) : State :=
  dbUpdateGateway s gatewayDbId (fun g =>
    { g with
      Latitude := some gateway.Latitude
      Longitude := some gateway.Longitude
      LastHeard := lastHeard
      Altitude := if gateway.Altitude ≠ 0 then some gateway.Altitude else g.Altitude
      LocationAccuracy :=
        if gateway.LocationAccuracy ≠ 0 then some gateway.LocationAccuracy else g.LocationAccuracy
      LocationSource :=
        if gateway.LocationSource ≠ "" then some gateway.LocationSource else g.LocationSource })

/-- Source `isLastHeardNewer` (lines 285-294). The function only reads; the state it leaves
behind is returned next to its result. -/
def isLastHeardNewer (s : State) (gatewayDbId : Nat) (lastHeard : Int) : Bool × State :=
  match cacheLoad s.gatewayLastHeardCache gatewayDbId with
  | some i => (decide (i < lastHeard), s)
  | none =>
    let gatewayDb := dbFirstGatewayById s gatewayDbId
    (decide (gatewayDb.LastHeard < lastHeard), s)

/-- Lines 103-119 of `updateGateway`: write the last-heard time to the row and to the cache,
then the hardware identifier and the description when they are set. -/
def persistLastHeard (s : State) (gatewayDbId : Nat) (lastHeard : Int)
    (gateway : TtnMapperGateway) : State :=
  let s := dbUpdateGateway s gatewayDbId (fun g => { g with LastHeard := lastHeard })
  let s := { s with gatewayLastHeardCache := cacheStore s.gatewayLastHeardCache gatewayDbId lastHeard }
  let s := if gateway.GatewayEui ≠ "" then
      dbUpdateGateway s gatewayDbId (fun g => { g with GatewayEui := some gateway.GatewayEui })
    else s
  if gateway.Description ≠ "" then
    dbUpdateGateway s gatewayDbId (fun g => { g with Description := some gateway.Description })
  else s

/-- Lines 121-126 of `updateGateway`: replace the coordinates by the forced pair, if any. -/
def forceCoordinates (s : State) (gateway : TtnMapperGateway) : TtnMapperGateway :=
  let r := isCoordinatesForced s gateway
  if r.1 = true then { gateway with Latitude := r.2.Latitude, Longitude := r.2.Longitude }
  else gateway

/-- Lines 128-133 of `updateGateway`: replace invalid coordinates by (0, 0). -/
def zeroInvalidCoordinates (gateway : TtnMapperGateway) : TtnMapperGateway :=
  if !coordinatesValid gateway then { gateway with Latitude := 0, Longitude := 0 }
  else gateway

/-- Lines 135-168 of `updateGateway`: movement detection against the last location row, the
counters, the new history row and the coordinates of the gateway row. -/
def recordLocation (km : ℚ → ℚ → ℚ → ℚ → ℚ) (s : State) (gatewayDbId : Nat) (lastHeard : Int)
    (gateway : TtnMapperGateway) : State :=
  let gatewayLastLocation := getGatewayLastLocation s gateway
  let r : Bool × State :=
    if gatewayLastLocation.ID ≠ 0 then
      if km gatewayLastLocation.Latitude gatewayLastLocation.Longitude
          gateway.Latitude gateway.Longitude > 0.1 then
        (true, { s with movedGateways := s.movedGateways + 1 })
      else (false, s)
    else (true, { s with newGateways := s.newGateways + 1 })
  if r.1 = true then
    updateGatewayLocation (insertNewLocationForGateway r.2 gateway lastHeard)
      gatewayDbId lastHeard gateway
  else r.2

/-- Source `updateGateway` (lines 77-173). The duration histogram is not part of the state. -/
def updateGateway (km : ℚ → ℚ → ℚ → ℚ → ℚ) (s : State) (gateway : TtnMapperGateway) : State :=
  let s := { s with processedGateways := s.processedGateways + 1 }
  let lastHeard := gateway.Time
  let r := getGatewayDbId s gateway
  let gatewayDbId := r.1
  let n := isLastHeardNewer r.2 gatewayDbId lastHeard
  if n.1 = false then n.2
  else
    let s := persistLastHeard n.2 gatewayDbId lastHeard gateway
    let gateway := zeroInvalidCoordinates (forceCoordinates s gateway)
    recordLocation km s gatewayDbId lastHeard gateway

/-- Whether `updateGateway` gets past the staleness gate of lines 96-101 on this update. -/
def accepts (s : State) (gateway : TtnMapperGateway) : Bool :=
  (isLastHeardNewer (getGatewayDbId s gateway).2 (getGatewayDbId s gateway).1 gateway.Time).1

/-- The update as it stands after lines 121-133: coordinates forced, then checked. -/
def candidate (s : State) (gateway : TtnMapperGateway) : TtnMapperGateway :=
  zeroInvalidCoordinates (forceCoordinates s gateway)

/-! ## Runs and relations between states -/

/-- The state a process starts from: empty tables and caches, counters at zero. The force
table is maintained by an administrator and may hold anything. -/
def emptyState (forces : List GatewayLocationForce) : State :=
  { gateways := [], gatewaySeq := 0, gatewayLocations := [], gatewayLocationSeq := 0,
    gatewayLocationForces := forces, gatewayDbIdCache := [], gatewayLastHeardCache := [],
    processedGateways := 0, newGateways := 0, movedGateways := 0 }

/-- Running `updateGateway` on a sequence of updates, one after the other. -/
def runUpdates (km : ℚ → ℚ → ℚ → ℚ → ℚ) (s : State) (updates : List TtnMapperGateway) : State :=
  updates.foldl (updateGateway km) s

/-- What one `updateGateway` call for the row key `id` may do to a `gateways` row `g`, giving
`g'`: keys stay, only rows with key `id` change, those get the event time as last-heard time,
and each optional column either stays or takes the non-default value of the update. -/
structure RowWrite (id : Nat) (u : TtnMapperGateway) (g g' : Gateway) : Prop where
  key : g'.ID = g.ID
  networkId : g'.NetworkId = g.NetworkId
  gatewayId : g'.GatewayId = g.GatewayId
  heard : g.ID = id → g'.LastHeard = u.Time
  other : g.ID ≠ id → g' = g
  eui : g'.GatewayEui = g.GatewayEui ∨ (u.GatewayEui ≠ "" ∧ g'.GatewayEui = some u.GatewayEui)
  description : g'.Description = g.Description ∨
    (u.Description ≠ "" ∧ g'.Description = some u.Description)
  altitude : g'.Altitude = g.Altitude ∨ (u.Altitude ≠ 0 ∧ g'.Altitude = some u.Altitude)
  accuracy : g'.LocationAccuracy = g.LocationAccuracy ∨
    (u.LocationAccuracy ≠ 0 ∧ g'.LocationAccuracy = some u.LocationAccuracy)
  source : g'.LocationSource = g.LocationSource ∨
    (u.LocationSource ≠ "" ∧ g'.LocationSource = some u.LocationSource)

/-- The accepted update `u` goes on with the pair (`lat`, `lon`): that pair is what lines
121-133 leave in the update, it is the pair compared with the last location row and put in
the history row that is appended, and the pair written to the gateway row whenever a history
row is appended. -/
def ProceedsWith (km : ℚ → ℚ → ℚ → ℚ → ℚ) (s : State) (u : TtnMapperGateway) (lat lon : ℚ) :
    Prop :=
  candidate s u = { u with Latitude := lat, Longitude := lon } ∧
  (updateGateway km s u).gatewayLocations =
    (if (getGatewayLastLocation s u).ID = 0 ∨
        0.1 < km (getGatewayLastLocation s u).Latitude (getGatewayLastLocation s u).Longitude
          lat lon
      then s.gatewayLocations ++
        [⟨s.gatewayLocationSeq + 1, u.NetworkId, u.GatewayId, u.Time, lat, lon⟩]
      else s.gatewayLocations) ∧
  ((getGatewayLastLocation s u).ID = 0 ∨
      0.1 < km (getGatewayLastLocation s u).Latitude (getGatewayLastLocation s u).Longitude
        lat lon →
    ∀ g ∈ (updateGateway km s u).gateways, g.ID = (getGatewayDbId s u).1 →
      g.Latitude = some lat ∧ g.Longitude = some lon)

/-! ## Sample inputs -/

/-- A stand-in for the great-circle distance on the samples below: 111 km for each degree of
difference in latitude and in longitude. -/
def gridKm (lat1 lon1 lat2 lon2 : ℚ) : ℚ := 111 * (|lat1 - lat2| + |lon1 - lon2|)

/-- A gateway row last heard at time 1000. -/
def sampleRow : Gateway :=
  { ID := 1, NetworkId := "thethingsnetwork.org", GatewayId := "eui-1", GatewayEui := none,
    Description := none, Latitude := some (-25.7), Longitude := some 28.2, Altitude := none,
    LocationAccuracy := none, LocationSource := none, LastHeard := 1000 }

/-- The location row of `sampleRow`. -/
def sampleLocation : GatewayLocation :=
  { ID := 1, NetworkId := "thethingsnetwork.org", GatewayId := "eui-1", InstalledAt := 1000,
    Latitude := -25.7, Longitude := 28.2 }

/-- A store that knows one gateway, with cold caches. -/
def sampleState (forces : List GatewayLocationForce) : State :=
  { gateways := [sampleRow], gatewaySeq := 1, gatewayLocations := [sampleLocation],
    gatewayLocationSeq := 1, gatewayLocationForces := forces, gatewayDbIdCache := [],
    gatewayLastHeardCache := [], processedGateways := 1, newGateways := 1, movedGateways := 0 }

/-- An update for the gateway of `sampleRow` with the given event time and coordinates. -/
def sampleUpdate (time : Int) (latitude longitude : ℚ) : TtnMapperGateway :=
  { NetworkId := "thethingsnetwork.org", GatewayId := "eui-1", Time := time, GatewayEui := "",
    Description := "", Latitude := latitude, Longitude := longitude, Altitude := 0,
    LocationAccuracy := 0, LocationSource := "" }

/-- A force row for the gateway of `sampleRow`. -/
def sampleForce (latitude longitude : ℚ) : GatewayLocationForce :=
  { ID := 1, NetworkId := "thethingsnetwork.org", GatewayId := "eui-1", Latitude := latitude,
    Longitude := longitude }

/-- An update with the network identifier of the sample gateway and a blank gateway
identifier, as `processRawPackets` builds it from a message whose gateway entry has no id. -/
def blankUpdate (time : Int) (latitude longitude : ℚ) : TtnMapperGateway :=
  { NetworkId := "thethingsnetwork.org", GatewayId := "", Time := time, GatewayEui := "",
    Description := "", Latitude := latitude, Longitude := longitude, Altitude := 0,
    LocationAccuracy := 0, LocationSource := "" }

/-- The row of `eui-1` with the given last-heard time and coordinates. -/
def rowOne (lastHeard : Int) (latitude longitude : ℚ) : Gateway :=
  { ID := 1, NetworkId := "thethingsnetwork.org", GatewayId := "eui-1", GatewayEui := none,
    Description := none, Latitude := some latitude, Longitude := some longitude,
    Altitude := none, LocationAccuracy := none, LocationSource := none,
    LastHeard := lastHeard }

/-- The state after the update of `eui-1` with time 1000 and coordinates (40, 40) has run on
the empty store. -/
def stateOne : State :=
  { gateways := [rowOne 1000 40 40], gatewaySeq := 1,
    gatewayLocations := [⟨1, "thethingsnetwork.org", "eui-1", 1000, 40, 40⟩],
    gatewayLocationSeq := 1, gatewayLocationForces := [],
    gatewayDbIdCache := [(⟨"thethingsnetwork.org", "eui-1"⟩, 1)],
    gatewayLastHeardCache := [(1, 1000)],
    processedGateways := 1, newGateways := 1, movedGateways := 0 }

/-- The state after a further update with a blank gateway identifier, time 2000 and
coordinates (41, 41). -/
def stateTwo : State :=
  { gateways := [rowOne 2000 41 41], gatewaySeq := 1,
    gatewayLocations := [⟨1, "thethingsnetwork.org", "eui-1", 1000, 40, 40⟩,
      ⟨2, "thethingsnetwork.org", "", 2000, 41, 41⟩],
    gatewayLocationSeq := 2, gatewayLocationForces := [],
    gatewayDbIdCache := [(⟨"thethingsnetwork.org", ""⟩, 1), (⟨"thethingsnetwork.org", "eui-1"⟩, 1)],
    gatewayLastHeardCache := [(1, 2000)],
    processedGateways := 2, newGateways := 1, movedGateways := 1 }

/-- The state after a further update of `eui-1` with time 3000 and coordinates (42, 42). -/
def stateThree : State :=
  { gateways := [rowOne 3000 42 42], gatewaySeq := 1,
    gatewayLocations := [⟨1, "thethingsnetwork.org", "eui-1", 1000, 40, 40⟩,
      ⟨2, "thethingsnetwork.org", "", 2000, 41, 41⟩,
      ⟨3, "thethingsnetwork.org", "eui-1", 3000, 42, 42⟩],
    gatewayLocationSeq := 3, gatewayLocationForces := [],
    gatewayDbIdCache := [(⟨"thethingsnetwork.org", ""⟩, 1), (⟨"thethingsnetwork.org", "eui-1"⟩, 1)],
    gatewayLastHeardCache := [(1, 3000)],
    processedGateways := 3, newGateways := 1, movedGateways := 2 }

/-- The sample store with a last-heard cache that is ahead of the stored row: the row says
1000, the cache says 5000. -/
def warmState : State :=
  { sampleState [] with gatewayLastHeardCache := [(1, 5000)] }

/-! ## Theorems -/

theorem coordinatesValid_eq_false_iff (g : TtnMapperGateway) :
    coordinatesValid g = false ↔
      ((|g.Latitude| < 1 ∧ |g.Longitude| < 1) ∨ |g.Latitude| > 90 ∨ |g.Longitude| > 180 ∨
        (g.Latitude = 52.0 ∧ g.Longitude = 6.0) ∨ (g.Latitude = 10.0 ∧ g.Longitude = 20.0) ∨
        (g.Latitude = 50.008724 ∧ g.Longitude = 36.215805)) := by
  unfold coordinatesValid
  split_ifs with h1 h2 h3 h4 h5 h6
  · simp [h1]
  · simp [h2]
  · simp [h3]
  · simp [h4]
  · simp [h5]
  · simp [h6]
  · simp only [Bool.true_eq_false, false_iff, not_or]
    exact ⟨h1, h2, h3, h4, h5, h6⟩

theorem cacheLoad_cacheStore_self {κ ν : Type} [DecidableEq κ] (m : List (κ × ν)) (k : κ) (v : ν) :
    cacheLoad (cacheStore m k v) k = some v := by
  simp [cacheLoad, cacheStore]

theorem cacheLoad_cacheStore_ne {κ ν : Type} [DecidableEq κ] (m : List (κ × ν)) (k k' : κ) (v : ν)
    (h : k' ≠ k) : cacheLoad (cacheStore m k v) k' = cacheLoad m k' := by
  have hk : ¬ k = k' := fun e => h e.symm
  simp only [cacheLoad, cacheStore, List.find?_cons, hk, decide_False]
  congr 1
  induction m with
  | nil => rfl
  | cons e m ih =>
    by_cases h1 : e.1 = k
    · have h2 : ¬ e.1 = k' := fun e2 => h (e2.symm.trans h1)
      simp [List.filter_cons, List.find?_cons, h1, h2, ih, hk]
    · by_cases h2 : e.1 = k'
      · simp [List.filter_cons, List.find?_cons, h1, h2, h]
      · simp [List.filter_cons, List.find?_cons, h1, h2, ih]

theorem isLastHeardNewer_state (s : State) (id : Nat) (t : Int) :
    (isLastHeardNewer s id t).2 = s := by
  unfold isLastHeardNewer
  split <;> rfl

theorem getGatewayDbId_cache (s : State) (u : TtnMapperGateway) :
    cacheLoad (getGatewayDbId s u).2.gatewayDbIdCache ⟨u.NetworkId, u.GatewayId⟩ =
      some (getGatewayDbId s u).1 := by
  cases hc : cacheLoad s.gatewayDbIdCache ⟨u.NetworkId, u.GatewayId⟩ with
  | some id => simp only [getGatewayDbId, hc]
  | none => simp only [getGatewayDbId, hc, cacheLoad_cacheStore_self]

theorem getGatewayDbId_of_cache (s : State) (u : TtnMapperGateway) (id : Nat)
    (h : cacheLoad s.gatewayDbIdCache ⟨u.NetworkId, u.GatewayId⟩ = some id) :
    getGatewayDbId s u = (id, s) := by
  unfold getGatewayDbId
  simp only [h]

theorem getGatewayDbId_idem (s : State) (u : TtnMapperGateway) :
    getGatewayDbId (getGatewayDbId s u).2 u = ((getGatewayDbId s u).1, (getGatewayDbId s u).2) :=
  getGatewayDbId_of_cache _ _ _ (getGatewayDbId_cache s u)

theorem getGatewayDbId_processed (s : State) (u : TtnMapperGateway) (p : Nat) :
    getGatewayDbId { s with processedGateways := p } u =
      ((getGatewayDbId s u).1, { (getGatewayDbId s u).2 with processedGateways := p }) := by
  unfold getGatewayDbId dbFirstOrCreateGateway
  dsimp only
  split
  · rfl
  · split <;> rfl

theorem isLastHeardNewer_processed (s : State) (id : Nat) (t : Int) (p : Nat) :
    (isLastHeardNewer { s with processedGateways := p } id t).1 = (isLastHeardNewer s id t).1 := by
  unfold isLastHeardNewer dbFirstGatewayById
  dsimp only
  split <;> rfl

theorem updateGateway_stale (km : ℚ → ℚ → ℚ → ℚ → ℚ) (s : State) (u : TtnMapperGateway)
    (h : accepts s u = false) :
    updateGateway km s u =
      { (getGatewayDbId s u).2 with processedGateways := s.processedGateways + 1 } := by
  unfold accepts at h
  unfold updateGateway
  simp only [getGatewayDbId_processed, isLastHeardNewer_processed, isLastHeardNewer_state, h,
    if_true]

theorem updateGateway_accepted (km : ℚ → ℚ → ℚ → ℚ → ℚ) (s : State) (u : TtnMapperGateway)
    (h : accepts s u = true) :
    updateGateway km s u =
      recordLocation km
        (persistLastHeard { (getGatewayDbId s u).2 with processedGateways := s.processedGateways + 1 }
          (getGatewayDbId s u).1 u.Time u)
        (getGatewayDbId s u).1 u.Time
        (candidate
          (persistLastHeard { (getGatewayDbId s u).2 with processedGateways := s.processedGateways + 1 }
            (getGatewayDbId s u).1 u.Time u) u) := by
  unfold accepts at h
  unfold updateGateway candidate
  simp only [getGatewayDbId_processed, isLastHeardNewer_processed, isLastHeardNewer_state, h]
  rfl

/-! ### Frame lemmas: which parts of the state each function leaves alone -/

theorem getGatewayDbId_frame (s : State) (u : TtnMapperGateway) :
    (getGatewayDbId s u).2.gatewayLocations = s.gatewayLocations ∧
    (getGatewayDbId s u).2.gatewayLocationSeq = s.gatewayLocationSeq ∧
    (getGatewayDbId s u).2.gatewayLocationForces = s.gatewayLocationForces ∧
    (getGatewayDbId s u).2.gatewayLastHeardCache = s.gatewayLastHeardCache ∧
    (getGatewayDbId s u).2.processedGateways = s.processedGateways ∧
    (getGatewayDbId s u).2.newGateways = s.newGateways ∧
    (getGatewayDbId s u).2.movedGateways = s.movedGateways := by
  cases hc : cacheLoad s.gatewayDbIdCache ⟨u.NetworkId, u.GatewayId⟩ with
  | some id => simp only [getGatewayDbId, hc, and_self]
  | none =>
    simp only [getGatewayDbId, hc, dbFirstOrCreateGateway]
    split <;> simp only [and_self]

theorem getGatewayDbId_gateways (s : State) (u : TtnMapperGateway) :
    ((getGatewayDbId s u).2.gateways = s.gateways ∧
      (getGatewayDbId s u).2.gatewaySeq = s.gatewaySeq) ∨
    ((getGatewayDbId s u).2.gateways =
        s.gateways ++ [newGatewayRow (s.gatewaySeq + 1) u.NetworkId u.GatewayId] ∧
      (getGatewayDbId s u).2.gatewaySeq = s.gatewaySeq + 1) := by
  cases hc : cacheLoad s.gatewayDbIdCache ⟨u.NetworkId, u.GatewayId⟩ with
  | some id => simp only [getGatewayDbId, hc, and_self, true_or]
  | none =>
    simp only [getGatewayDbId, hc, dbFirstOrCreateGateway]
    split
    · simp only [and_self, true_or]
    · simp only [and_self, or_true]

theorem getGatewayDbId_cases (s : State) (u : TtnMapperGateway) :
    (∃ id, cacheLoad s.gatewayDbIdCache ⟨u.NetworkId, u.GatewayId⟩ = some id ∧
      getGatewayDbId s u = (id, s)) ∨
    (cacheLoad s.gatewayDbIdCache ⟨u.NetworkId, u.GatewayId⟩ = none ∧
      ∃ g, s.gateways.find?
          (fun g => whereMatches u.NetworkId u.GatewayId g.NetworkId g.GatewayId) = some g ∧
        getGatewayDbId s u = (g.ID,
          { s with
            gatewayDbIdCache := cacheStore s.gatewayDbIdCache ⟨u.NetworkId, u.GatewayId⟩ g.ID })) ∨
    (cacheLoad s.gatewayDbIdCache ⟨u.NetworkId, u.GatewayId⟩ = none ∧
      s.gateways.find?
        (fun g => whereMatches u.NetworkId u.GatewayId g.NetworkId g.GatewayId) = none ∧
      getGatewayDbId s u = (s.gatewaySeq + 1,
        { s with
          gateways := s.gateways ++ [newGatewayRow (s.gatewaySeq + 1) u.NetworkId u.GatewayId],
          gatewaySeq := s.gatewaySeq + 1,
          gatewayDbIdCache :=
            cacheStore s.gatewayDbIdCache ⟨u.NetworkId, u.GatewayId⟩ (s.gatewaySeq + 1) })) := by
  cases hc : cacheLoad s.gatewayDbIdCache ⟨u.NetworkId, u.GatewayId⟩ with
  | some id => exact Or.inl ⟨id, rfl, getGatewayDbId_of_cache s u id hc⟩
  | none =>
    right
    cases hf : s.gateways.find?
        (fun g => whereMatches u.NetworkId u.GatewayId g.NetworkId g.GatewayId) with
    | some g =>
      refine Or.inl ⟨rfl, g, rfl, ?_⟩
      simp only [getGatewayDbId, hc, dbFirstOrCreateGateway, hf]
    | none =>
      refine Or.inr ⟨rfl, rfl, ?_⟩
      simp only [getGatewayDbId, hc, dbFirstOrCreateGateway, hf, newGatewayRow]

theorem persistLastHeard_gateways (s : State) (id : Nat) (t : Int) (u : TtnMapperGateway) :
    (persistLastHeard s id t u).gateways =
      s.gateways.map (fun g => if g.ID = id then
        { g with
          LastHeard := t
          GatewayEui := if u.GatewayEui ≠ "" then some u.GatewayEui else g.GatewayEui
          Description := if u.Description ≠ "" then some u.Description else g.Description }
        else g) := by
  unfold persistLastHeard dbUpdateGateway
  by_cases h1 : u.GatewayEui = "" <;> by_cases h2 : u.Description = "" <;>
    simp only [h1, h2, ne_eq, not_true_eq_false, not_false_eq_true, if_true, if_false,
      List.map_map] <;>
    apply List.map_congr_left <;> intro g _ <;> by_cases hg : g.ID = id <;>
    simp [Function.comp, hg]

theorem persistLastHeard_frame (s : State) (id : Nat) (t : Int) (u : TtnMapperGateway) :
    (persistLastHeard s id t u).gatewaySeq = s.gatewaySeq ∧
    (persistLastHeard s id t u).gatewayLocations = s.gatewayLocations ∧
    (persistLastHeard s id t u).gatewayLocationSeq = s.gatewayLocationSeq ∧
    (persistLastHeard s id t u).gatewayLocationForces = s.gatewayLocationForces ∧
    (persistLastHeard s id t u).gatewayDbIdCache = s.gatewayDbIdCache ∧
    (persistLastHeard s id t u).gatewayLastHeardCache =
      cacheStore s.gatewayLastHeardCache id t ∧
    (persistLastHeard s id t u).processedGateways = s.processedGateways ∧
    (persistLastHeard s id t u).newGateways = s.newGateways ∧
    (persistLastHeard s id t u).movedGateways = s.movedGateways := by
  unfold persistLastHeard dbUpdateGateway
  by_cases h1 : u.GatewayEui = "" <;> by_cases h2 : u.Description = "" <;>
    simp [h1, h2]

theorem candidate_congr (s s' : State) (u : TtnMapperGateway)
    (h : s'.gatewayLocationForces = s.gatewayLocationForces) : candidate s' u = candidate s u := by
  unfold candidate forceCoordinates isCoordinatesForced
  rw [h]

theorem forceCoordinates_fields (s : State) (u : TtnMapperGateway) :
    (forceCoordinates s u).NetworkId = u.NetworkId ∧
    (forceCoordinates s u).GatewayId = u.GatewayId ∧
    (forceCoordinates s u).Altitude = u.Altitude ∧
    (forceCoordinates s u).LocationAccuracy = u.LocationAccuracy ∧
    (forceCoordinates s u).LocationSource = u.LocationSource := by
  unfold forceCoordinates
  dsimp only
  split <;> simp only [and_self]

theorem zeroInvalidCoordinates_fields (u : TtnMapperGateway) :
    (zeroInvalidCoordinates u).NetworkId = u.NetworkId ∧
    (zeroInvalidCoordinates u).GatewayId = u.GatewayId ∧
    (zeroInvalidCoordinates u).Altitude = u.Altitude ∧
    (zeroInvalidCoordinates u).LocationAccuracy = u.LocationAccuracy ∧
    (zeroInvalidCoordinates u).LocationSource = u.LocationSource := by
  unfold zeroInvalidCoordinates
  split <;> simp only [and_self]

theorem candidate_fields (s : State) (u : TtnMapperGateway) :
    (candidate s u).NetworkId = u.NetworkId ∧
    (candidate s u).GatewayId = u.GatewayId ∧
    (candidate s u).Altitude = u.Altitude ∧
    (candidate s u).LocationAccuracy = u.LocationAccuracy ∧
    (candidate s u).LocationSource = u.LocationSource := by
  obtain ⟨a1, a2, a3, a4, a5⟩ := zeroInvalidCoordinates_fields (forceCoordinates s u)
  obtain ⟨b1, b2, b3, b4, b5⟩ := forceCoordinates_fields s u
  unfold candidate
  exact ⟨a1.trans b1, a2.trans b2, a3.trans b3, a4.trans b4, a5.trans b5⟩

theorem getGatewayLastLocation_congr (s s' : State) (u u' : TtnMapperGateway)
    (h : s'.gatewayLocations = s.gatewayLocations) (h1 : u'.NetworkId = u.NetworkId)
    (h2 : u'.GatewayId = u.GatewayId) :
    getGatewayLastLocation s' u' = getGatewayLastLocation s u := by
  unfold getGatewayLastLocation
  rw [h, h1, h2]

/-! ### The three ways an accepted update ends -/

theorem recordLocation_notMoved (km : ℚ → ℚ → ℚ → ℚ → ℚ) (s : State) (id : Nat) (t : Int)
    (c : TtnMapperGateway) (h0 : (getGatewayLastLocation s c).ID ≠ 0)
    (hd : ¬ 0.1 < km (getGatewayLastLocation s c).Latitude (getGatewayLastLocation s c).Longitude
      c.Latitude c.Longitude) :
    recordLocation km s id t c = s := by
  unfold recordLocation
  simp only [h0, ne_eq, not_false_eq_true, if_true, gt_iff_lt, hd, if_false]
  rfl

theorem recordLocation_moved (km : ℚ → ℚ → ℚ → ℚ → ℚ) (s : State) (id : Nat) (t : Int)
    (c : TtnMapperGateway) (h0 : (getGatewayLastLocation s c).ID ≠ 0)
    (hd : 0.1 < km (getGatewayLastLocation s c).Latitude (getGatewayLastLocation s c).Longitude
      c.Latitude c.Longitude) :
    recordLocation km s id t c =
      updateGatewayLocation
        (insertNewLocationForGateway { s with movedGateways := s.movedGateways + 1 } c t) id t c := by
  unfold recordLocation
  simp only [h0, ne_eq, not_false_eq_true, if_true, gt_iff_lt, hd]

theorem recordLocation_new (km : ℚ → ℚ → ℚ → ℚ → ℚ) (s : State) (id : Nat) (t : Int)
    (c : TtnMapperGateway) (h0 : (getGatewayLastLocation s c).ID = 0) :
    recordLocation km s id t c =
      updateGatewayLocation
        (insertNewLocationForGateway { s with newGateways := s.newGateways + 1 } c t) id t c := by
  unfold recordLocation
  simp only [h0, ne_eq, not_true_eq_false, if_false, if_true]

theorem recordLocation_caches (km : ℚ → ℚ → ℚ → ℚ → ℚ) (s : State) (id : Nat) (t : Int)
    (c : TtnMapperGateway) :
    (recordLocation km s id t c).gatewayDbIdCache = s.gatewayDbIdCache ∧
    (recordLocation km s id t c).gatewayLastHeardCache = s.gatewayLastHeardCache ∧
    (recordLocation km s id t c).processedGateways = s.processedGateways ∧
    (recordLocation km s id t c).gatewayLocationForces = s.gatewayLocationForces ∧
    (recordLocation km s id t c).gatewaySeq = s.gatewaySeq := by
  by_cases h0 : (getGatewayLastLocation s c).ID = 0
  · rw [recordLocation_new km s id t c h0]
    simp only [updateGatewayLocation, dbUpdateGateway, insertNewLocationForGateway, and_self]
  · by_cases hd : 0.1 < km (getGatewayLastLocation s c).Latitude
        (getGatewayLastLocation s c).Longitude c.Latitude c.Longitude
    · rw [recordLocation_moved km s id t c h0 hd]
      simp only [updateGatewayLocation, dbUpdateGateway, insertNewLocationForGateway, and_self]
    · rw [recordLocation_notMoved km s id t c h0 hd]
      simp only [and_self]

theorem accepts_after_stale (s : State) (u : TtnMapperGateway) (p : Nat) :
    accepts { (getGatewayDbId s u).2 with processedGateways := p } u = accepts s u := by
  unfold accepts
  rw [getGatewayDbId_processed, getGatewayDbId_idem]
  exact isLastHeardNewer_processed _ _ _ _

theorem isLastHeardNewer_of_cache (s : State) (id : Nat) (t i : Int)
    (h : cacheLoad s.gatewayLastHeardCache id = some i) :
    (isLastHeardNewer s id t).1 = decide (i < t) := by
  unfold isLastHeardNewer
  simp only [h]

theorem updateGateway_twice (km : ℚ → ℚ → ℚ → ℚ → ℚ) (s : State) (u : TtnMapperGateway) :
    accepts (updateGateway km s u) u = false ∧
    updateGateway km (updateGateway km s u) u =
      { updateGateway km s u with
        processedGateways := (updateGateway km s u).processedGateways + 1 } := by
  have key : accepts (updateGateway km s u) u = false ∧
      getGatewayDbId (updateGateway km s u) u =
        ((getGatewayDbId s u).1, updateGateway km s u) := by
    cases hacc : accepts s u with
    | false =>
      rw [updateGateway_stale km s u hacc]
      refine ⟨(accepts_after_stale s u _).trans hacc, ?_⟩
      rw [getGatewayDbId_processed, getGatewayDbId_idem]
    | true =>
      rw [updateGateway_accepted km s u hacc]
      obtain ⟨c1, c2, -, -, -⟩ := recordLocation_caches km
        (persistLastHeard
          { (getGatewayDbId s u).2 with processedGateways := s.processedGateways + 1 }
          (getGatewayDbId s u).1 u.Time u)
        (getGatewayDbId s u).1 u.Time
        (candidate (persistLastHeard
          { (getGatewayDbId s u).2 with processedGateways := s.processedGateways + 1 }
          (getGatewayDbId s u).1 u.Time u) u)
      obtain ⟨-, -, -, -, p5, p6, -, -, -⟩ := persistLastHeard_frame
        { (getGatewayDbId s u).2 with processedGateways := s.processedGateways + 1 }
        (getGatewayDbId s u).1 u.Time u
      have hid := getGatewayDbId_of_cache _ u (getGatewayDbId s u).1
        ((congrArg (fun m => cacheLoad m (⟨u.NetworkId, u.GatewayId⟩ : GatewayIndexer))
          (c1.trans p5)).trans (getGatewayDbId_cache s u))
      refine ⟨?_, hid⟩
      unfold accepts
      rw [hid]
      rw [isLastHeardNewer_of_cache _ _ _ u.Time
        ((congrArg (fun m => cacheLoad m (getGatewayDbId s u).1) (c2.trans p6)).trans
          (cacheLoad_cacheStore_self _ _ _))]
      simp
  refine ⟨key.1, ?_⟩
  rw [updateGateway_stale km _ u key.1, key.2]

/-! ### The shape of the state after an accepted update -/

theorem rowWrite_persist (id : Nat) (u : TtnMapperGateway) (g : Gateway) :
    RowWrite id u g (if g.ID = id then
        { g with
          LastHeard := u.Time
          GatewayEui := if u.GatewayEui ≠ "" then some u.GatewayEui else g.GatewayEui
          Description := if u.Description ≠ "" then some u.Description else g.Description }
        else g) := by
  by_cases hg : g.ID = id
  · rw [if_pos hg]
    refine ⟨rfl, rfl, rfl, fun _ => rfl, fun hn => absurd hg hn, ?_, ?_, Or.inl rfl, Or.inl rfl,
      Or.inl rfl⟩
    · by_cases h : u.GatewayEui = ""
      · exact Or.inl (if_neg (not_not.mpr h))
      · exact Or.inr ⟨h, if_pos h⟩
    · by_cases h : u.Description = ""
      · exact Or.inl (if_neg (not_not.mpr h))
      · exact Or.inr ⟨h, if_pos h⟩
  · rw [if_neg hg]
    exact ⟨rfl, rfl, rfl, fun h => absurd h hg, fun _ => rfl, Or.inl rfl, Or.inl rfl, Or.inl rfl,
      Or.inl rfl, Or.inl rfl⟩

theorem rowWrite_place (id : Nat) (u c : TtnMapperGateway) (g g' : Gateway)
    (hc : c.Altitude = u.Altitude ∧ c.LocationAccuracy = u.LocationAccuracy ∧
      c.LocationSource = u.LocationSource)
    (h : RowWrite id u g g') :
    RowWrite id u g (if g'.ID = id then
        { g' with
          Latitude := some c.Latitude
          Longitude := some c.Longitude
          LastHeard := u.Time
          Altitude := if c.Altitude ≠ 0 then some c.Altitude else g'.Altitude
          LocationAccuracy :=
            if c.LocationAccuracy ≠ 0 then some c.LocationAccuracy else g'.LocationAccuracy
          LocationSource :=
            if c.LocationSource ≠ "" then some c.LocationSource else g'.LocationSource }
        else g') := by
  obtain ⟨c1, c2, c3⟩ := hc
  by_cases hg : g'.ID = id
  · have hg0 : g.ID = id := h.key ▸ hg
    rw [if_pos hg, c1, c2, c3]
    refine ⟨h.key, h.networkId, h.gatewayId, fun _ => rfl, fun hn => absurd hg0 hn, h.eui,
      h.description, ?_, ?_, ?_⟩
    · by_cases ha : u.Altitude = 0
      · rcases h.altitude with e | ⟨hn, _⟩
        · exact Or.inl ((if_neg (not_not.mpr ha)).trans e)
        · exact absurd ha hn
      · exact Or.inr ⟨ha, if_pos ha⟩
    · by_cases ha : u.LocationAccuracy = 0
      · rcases h.accuracy with e | ⟨hn, _⟩
        · exact Or.inl ((if_neg (not_not.mpr ha)).trans e)
        · exact absurd ha hn
      · exact Or.inr ⟨ha, if_pos ha⟩
    · by_cases ha : u.LocationSource = ""
      · rcases h.source with e | ⟨hn, _⟩
        · exact Or.inl ((if_neg (not_not.mpr ha)).trans e)
        · exact absurd ha hn
      · exact Or.inr ⟨ha, if_pos ha⟩
  · rw [if_neg hg]
    exact h

theorem updateGateway_accepted_shape (km : ℚ → ℚ → ℚ → ℚ → ℚ) (s : State) (u : TtnMapperGateway)
    (hacc : accepts s u = true) :
    ∃ φ : Gateway → Gateway,
      (∀ g, RowWrite (getGatewayDbId s u).1 u g (φ g)) ∧
      (updateGateway km s u).gateways = (getGatewayDbId s u).2.gateways.map φ ∧
      (updateGateway km s u).gatewaySeq = (getGatewayDbId s u).2.gatewaySeq ∧
      (updateGateway km s u).gatewayLocationForces = s.gatewayLocationForces ∧
      (updateGateway km s u).gatewayDbIdCache = (getGatewayDbId s u).2.gatewayDbIdCache ∧
      (updateGateway km s u).gatewayLastHeardCache =
        cacheStore s.gatewayLastHeardCache (getGatewayDbId s u).1 u.Time ∧
      (updateGateway km s u).processedGateways = s.processedGateways + 1 ∧
      (((getGatewayLastLocation s u).ID ≠ 0 ∧
          ¬ 0.1 < km (getGatewayLastLocation s u).Latitude (getGatewayLastLocation s u).Longitude
            (candidate s u).Latitude (candidate s u).Longitude ∧
          (updateGateway km s u).gatewayLocations = s.gatewayLocations ∧
          (updateGateway km s u).gatewayLocationSeq = s.gatewayLocationSeq ∧
          (updateGateway km s u).newGateways = s.newGateways ∧
          (updateGateway km s u).movedGateways = s.movedGateways ∧
          ∀ g, (φ g).Latitude = g.Latitude ∧ (φ g).Longitude = g.Longitude) ∨
        ((((getGatewayLastLocation s u).ID ≠ 0 ∧
            0.1 < km (getGatewayLastLocation s u).Latitude (getGatewayLastLocation s u).Longitude
              (candidate s u).Latitude (candidate s u).Longitude ∧
            (updateGateway km s u).newGateways = s.newGateways ∧
            (updateGateway km s u).movedGateways = s.movedGateways + 1) ∨
          ((getGatewayLastLocation s u).ID = 0 ∧
            (updateGateway km s u).newGateways = s.newGateways + 1 ∧
            (updateGateway km s u).movedGateways = s.movedGateways)) ∧
          (updateGateway km s u).gatewayLocations = s.gatewayLocations ++
            [⟨s.gatewayLocationSeq + 1, u.NetworkId, u.GatewayId, u.Time,
              (candidate s u).Latitude, (candidate s u).Longitude⟩] ∧
          (updateGateway km s u).gatewayLocationSeq = s.gatewayLocationSeq + 1 ∧
          ∀ g, g.ID = (getGatewayDbId s u).1 →
            (φ g).Latitude = some (candidate s u).Latitude ∧
            (φ g).Longitude = some (candidate s u).Longitude)) := by
  obtain ⟨f1, f2, f3, f4, f5, f6, f7⟩ := getGatewayDbId_frame s u
  obtain ⟨p1, p2, p3, p4, p5, p6, p7, p8, p9⟩ := persistLastHeard_frame
    { (getGatewayDbId s u).2 with processedGateways := s.processedGateways + 1 }
    (getGatewayDbId s u).1 u.Time u
  have pg := persistLastHeard_gateways
    { (getGatewayDbId s u).2 with processedGateways := s.processedGateways + 1 }
    (getGatewayDbId s u).1 u.Time u
  have hc : candidate (persistLastHeard
      { (getGatewayDbId s u).2 with processedGateways := s.processedGateways + 1 }
      (getGatewayDbId s u).1 u.Time u) u = candidate s u :=
    candidate_congr s _ u (p4.trans f3)
  obtain ⟨k1, k2, k3, k4, k5⟩ := candidate_fields s u
  have hl : getGatewayLastLocation (persistLastHeard
      { (getGatewayDbId s u).2 with processedGateways := s.processedGateways + 1 }
      (getGatewayDbId s u).1 u.Time u) (candidate s u) = getGatewayLastLocation s u :=
    getGatewayLastLocation_congr s _ u _ (p2.trans f1) k1 k2
  rw [updateGateway_accepted km s u hacc, hc]
  generalize hP : persistLastHeard
      { (getGatewayDbId s u).2 with processedGateways := s.processedGateways + 1 }
      (getGatewayDbId s u).1 u.Time u = P at *
  dsimp only at p1 p2 p3 p4 p5 p6 p7 p8 p9 pg
  by_cases h0 : (getGatewayLastLocation s u).ID = 0
  · -- a new gateway
    refine ⟨fun g => if (if g.ID = (getGatewayDbId s u).1 then _ else g).ID = (getGatewayDbId s u).1
        then _ else _, fun g => rowWrite_place _ u (candidate s u) g _ ⟨k3, k4, k5⟩
        (rowWrite_persist _ u g), ?_⟩
    rw [recordLocation_new km P _ _ _ (hl ▸ h0)]
    simp only [updateGatewayLocation, dbUpdateGateway, insertNewLocationForGateway, pg,
      List.map_map, p1, p2, p3, p4, p5, p6, p7, p8, p9, f1, f2, f3, f4, f5, f6, f7, k1, k2]
    refine ⟨rfl, trivial, trivial, trivial, trivial, trivial, Or.inr ⟨Or.inr ⟨h0, trivial, trivial⟩, trivial, trivial, ?_⟩⟩
    intro g hg
    simp [hg]
  · by_cases hd : 0.1 < km (getGatewayLastLocation s u).Latitude
        (getGatewayLastLocation s u).Longitude (candidate s u).Latitude (candidate s u).Longitude
    · -- a gateway that moved
      refine ⟨fun g => if (if g.ID = (getGatewayDbId s u).1 then _ else g).ID = (getGatewayDbId s u).1
          then _ else _, fun g => rowWrite_place _ u (candidate s u) g _ ⟨k3, k4, k5⟩
          (rowWrite_persist _ u g), ?_⟩
      rw [recordLocation_moved km P _ _ _ (hl ▸ h0) (hl ▸ hd)]
      simp only [updateGatewayLocation, dbUpdateGateway, insertNewLocationForGateway, pg,
        List.map_map, p1, p2, p3, p4, p5, p6, p7, p8, p9, f1, f2, f3, f4, f5, f6, f7, k1, k2]
      refine ⟨rfl, trivial, trivial, trivial, trivial, trivial, Or.inr ⟨Or.inl ⟨h0, hd, trivial, trivial⟩, trivial, trivial, ?_⟩⟩
      intro g hg
      simp [hg]
    · -- a gateway that stayed
      refine ⟨_, fun g => rowWrite_persist _ u g, ?_⟩
      rw [recordLocation_notMoved km P _ _ _ (hl ▸ h0) (hl ▸ hd)]
      refine ⟨pg, p1, p4.trans f3, p5, p6.trans (by rw [f4]), p7, Or.inl ⟨h0, hd, p2.trans f1, p3.trans f2,
        p8.trans f6, p9.trans f7, ?_⟩⟩
      intro g
      by_cases hg : g.ID = (getGatewayDbId s u).1 <;> simp [hg]

/-! ### What an accepted update writes -/

theorem accepted_coordinates (km : ℚ → ℚ → ℚ → ℚ → ℚ) (s : State) (u : TtnMapperGateway)
    (hacc : accepts s u = true) :
    (updateGateway km s u).gatewayLocations =
      (if (getGatewayLastLocation s u).ID = 0 ∨
          0.1 < km (getGatewayLastLocation s u).Latitude (getGatewayLastLocation s u).Longitude
            (candidate s u).Latitude (candidate s u).Longitude
        then s.gatewayLocations ++ [⟨s.gatewayLocationSeq + 1, u.NetworkId, u.GatewayId, u.Time,
          (candidate s u).Latitude, (candidate s u).Longitude⟩]
        else s.gatewayLocations) ∧
    ((getGatewayLastLocation s u).ID = 0 ∨
        0.1 < km (getGatewayLastLocation s u).Latitude (getGatewayLastLocation s u).Longitude
          (candidate s u).Latitude (candidate s u).Longitude →
      ∀ g ∈ (updateGateway km s u).gateways, g.ID = (getGatewayDbId s u).1 →
        g.Latitude = some (candidate s u).Latitude ∧
        g.Longitude = some (candidate s u).Longitude) ∧
    (∀ g ∈ (updateGateway km s u).gateways, g.ID = (getGatewayDbId s u).1 →
      g.LastHeard = u.Time) ∧
    cacheLoad (updateGateway km s u).gatewayLastHeardCache (getGatewayDbId s u).1 =
      some u.Time := by
  obtain ⟨φ, hφ, e1, -, -, -, e5, -, hcase⟩ := updateGateway_accepted_shape km s u hacc
  have hheard : ∀ g ∈ (updateGateway km s u).gateways, g.ID = (getGatewayDbId s u).1 →
      g.LastHeard = u.Time := by
    intro g hg hid
    rw [e1] at hg
    obtain ⟨g0, -, rfl⟩ := List.mem_map.mp hg
    exact (hφ g0).heard ((hφ g0).key.symm.trans hid)
  have hcache : cacheLoad (updateGateway km s u).gatewayLastHeardCache (getGatewayDbId s u).1 =
      some u.Time := by
    rw [e5]
    exact cacheLoad_cacheStore_self _ _ _
  rcases hcase with ⟨h0, hd, l1, -, -, -, -⟩ | ⟨hbr, l1, -, hrow⟩
  · refine ⟨?_, ?_, hheard, hcache⟩
    · rw [l1, if_neg (not_or.mpr ⟨h0, hd⟩)]
    · intro h
      exact absurd h (not_or.mpr ⟨h0, hd⟩)
  · have hcond : (getGatewayLastLocation s u).ID = 0 ∨
        0.1 < km (getGatewayLastLocation s u).Latitude (getGatewayLastLocation s u).Longitude
          (candidate s u).Latitude (candidate s u).Longitude := by
      rcases hbr with ⟨-, hd, -, -⟩ | ⟨h0, -, -⟩
      · exact Or.inr hd
      · exact Or.inl h0
    refine ⟨?_, ?_, hheard, hcache⟩
    · rw [l1, if_pos hcond]
    · intro _ g hg hid
      rw [e1] at hg
      obtain ⟨g0, -, rfl⟩ := List.mem_map.mp hg
      exact hrow g0 ((hφ g0).key.symm.trans hid)

theorem candidate_forced (s : State) (u : TtnMapperGateway) (f : GatewayLocationForce)
    (hf : s.gatewayLocationForces.find?
      (fun f => whereMatches u.NetworkId u.GatewayId f.NetworkId f.GatewayId) = some f)
    (hid : f.ID ≠ 0) :
    candidate s u =
      zeroInvalidCoordinates { u with Latitude := f.Latitude, Longitude := f.Longitude } := by
  unfold candidate forceCoordinates isCoordinatesForced
  simp only [hf, hid, ne_eq, not_false_eq_true, if_true]

theorem candidate_unforced (s : State) (u : TtnMapperGateway)
    (h : (isCoordinatesForced s u).1 = false) : candidate s u = zeroInvalidCoordinates u := by
  unfold candidate forceCoordinates
  simp only [h, Bool.false_eq_true, if_false]

theorem updateGateway_rows (km : ℚ → ℚ → ℚ → ℚ → ℚ) (s : State) (u : TtnMapperGateway) :
    ∃ (φ : Gateway → Gateway) (extra : List Gateway),
      (updateGateway km s u).gateways = s.gateways.map φ ++ extra ∧
      (∀ g, (φ g).ID = g.ID ∧
        ((φ g).GatewayEui = g.GatewayEui ∨
          (u.GatewayEui ≠ "" ∧ (φ g).GatewayEui = some u.GatewayEui)) ∧
        ((φ g).Description = g.Description ∨
          (u.Description ≠ "" ∧ (φ g).Description = some u.Description)) ∧
        ((φ g).Altitude = g.Altitude ∨ (u.Altitude ≠ 0 ∧ (φ g).Altitude = some u.Altitude)) ∧
        ((φ g).LocationAccuracy = g.LocationAccuracy ∨
          (u.LocationAccuracy ≠ 0 ∧ (φ g).LocationAccuracy = some u.LocationAccuracy)) ∧
        ((φ g).LocationSource = g.LocationSource ∨
          (u.LocationSource ≠ "" ∧ (φ g).LocationSource = some u.LocationSource))) ∧
      ((updateGateway km s u).gatewayLocations = s.gatewayLocations →
        ∀ g, (φ g).Latitude = g.Latitude ∧ (φ g).Longitude = g.Longitude) := by
  cases hacc : accepts s u with
  | false =>
    rw [updateGateway_stale km s u hacc]
    refine ⟨id, ?_⟩
    rcases getGatewayDbId_gateways s u with ⟨h, -⟩ | ⟨h, -⟩
    · exact ⟨[], by simp [h], fun g => ⟨rfl, Or.inl rfl, Or.inl rfl, Or.inl rfl, Or.inl rfl,
        Or.inl rfl⟩, fun _ _ => ⟨rfl, rfl⟩⟩
    · exact ⟨[newGatewayRow (s.gatewaySeq + 1) u.NetworkId u.GatewayId], by simp [h],
        fun g => ⟨rfl, Or.inl rfl, Or.inl rfl, Or.inl rfl, Or.inl rfl, Or.inl rfl⟩,
        fun _ _ => ⟨rfl, rfl⟩⟩
  | true =>
    obtain ⟨φ, hφ, e1, -, -, -, -, -, hcase⟩ := updateGateway_accepted_shape km s u hacc
    have hrel : ∀ g, (φ g).ID = g.ID ∧
        ((φ g).GatewayEui = g.GatewayEui ∨
          (u.GatewayEui ≠ "" ∧ (φ g).GatewayEui = some u.GatewayEui)) ∧
        ((φ g).Description = g.Description ∨
          (u.Description ≠ "" ∧ (φ g).Description = some u.Description)) ∧
        ((φ g).Altitude = g.Altitude ∨ (u.Altitude ≠ 0 ∧ (φ g).Altitude = some u.Altitude)) ∧
        ((φ g).LocationAccuracy = g.LocationAccuracy ∨
          (u.LocationAccuracy ≠ 0 ∧ (φ g).LocationAccuracy = some u.LocationAccuracy)) ∧
        ((φ g).LocationSource = g.LocationSource ∨
          (u.LocationSource ≠ "" ∧ (φ g).LocationSource = some u.LocationSource)) :=
      fun g => ⟨(hφ g).key, (hφ g).eui, (hφ g).description, (hφ g).altitude, (hφ g).accuracy,
        (hφ g).source⟩
    have hstay : (updateGateway km s u).gatewayLocations = s.gatewayLocations →
        ∀ g, (φ g).Latitude = g.Latitude ∧ (φ g).Longitude = g.Longitude := by
      intro hl
      rcases hcase with ⟨-, -, -, -, -, -, h⟩ | ⟨-, l1, -, -⟩
      · exact h
      · rw [l1] at hl
        have := congrArg List.length hl
        simp at this
    rcases getGatewayDbId_gateways s u with ⟨h, -⟩ | ⟨h, -⟩
    · exact ⟨φ, [], by rw [e1, h, List.append_nil], hrel, hstay⟩
    · exact ⟨φ, _, by rw [e1, h, List.map_append], hrel, hstay⟩

theorem proceedsWith_of_candidate (km : ℚ → ℚ → ℚ → ℚ → ℚ) (s : State) (u : TtnMapperGateway)
    (lat lon : ℚ) (hacc : accepts s u = true)
    (hc : candidate s u = { u with Latitude := lat, Longitude := lon }) :
    ProceedsWith km s u lat lon := by
  obtain ⟨a1, a2, -, -⟩ := accepted_coordinates km s u hacc
  rw [hc] at a1 a2
  exact ⟨hc, a1, a2⟩

/-! ### Sample states -/

theorem accepts_sampleState (forces : List GatewayLocationForce) (lat lon : ℚ) :
    accepts (sampleState forces) (sampleUpdate 2000 lat lon) = true := by
  simp [accepts, getGatewayDbId, cacheLoad, cacheStore, dbFirstOrCreateGateway, whereMatches, isLastHeardNewer,
    dbFirstGatewayById, sampleState, sampleRow, sampleUpdate]

theorem accepts_emptyState (forces : List GatewayLocationForce) (lat lon : ℚ) :
    accepts (emptyState forces) (sampleUpdate 2000 lat lon) = true := by
  simp [accepts, getGatewayDbId, cacheLoad, cacheStore, dbFirstOrCreateGateway, whereMatches, isLastHeardNewer,
    dbFirstGatewayById, emptyState, sampleUpdate, newGatewayRow, zeroTime]

/-! ### Evaluating one call -/

theorem updateGateway_eq_moved (km : ℚ → ℚ → ℚ → ℚ → ℚ) (s : State) (u : TtnMapperGateway)
    (hacc : accepts s u = true) (h0 : (getGatewayLastLocation s u).ID ≠ 0)
    (hd : 0.1 < km (getGatewayLastLocation s u).Latitude (getGatewayLastLocation s u).Longitude
      (candidate s u).Latitude (candidate s u).Longitude) :
    updateGateway km s u =
      updateGatewayLocation
        (insertNewLocationForGateway
          { persistLastHeard
              { (getGatewayDbId s u).2 with processedGateways := s.processedGateways + 1 }
              (getGatewayDbId s u).1 u.Time u with
            movedGateways := s.movedGateways + 1 }
          (candidate s u) u.Time)
        (getGatewayDbId s u).1 u.Time (candidate s u) := by
  obtain ⟨f1, f2, f3, f4, f5, f6, f7⟩ := getGatewayDbId_frame s u
  obtain ⟨p1, p2, p3, p4, p5, p6, p7, p8, p9⟩ := persistLastHeard_frame
    { (getGatewayDbId s u).2 with processedGateways := s.processedGateways + 1 }
    (getGatewayDbId s u).1 u.Time u
  have hc : candidate (persistLastHeard
      { (getGatewayDbId s u).2 with processedGateways := s.processedGateways + 1 }
      (getGatewayDbId s u).1 u.Time u) u = candidate s u :=
    candidate_congr s _ u (p4.trans f3)
  obtain ⟨k1, k2, -⟩ := candidate_fields s u
  have hl : getGatewayLastLocation (persistLastHeard
      { (getGatewayDbId s u).2 with processedGateways := s.processedGateways + 1 }
      (getGatewayDbId s u).1 u.Time u) (candidate s u) = getGatewayLastLocation s u :=
    getGatewayLastLocation_congr s _ u _ (p2.trans f1) k1 k2
  rw [updateGateway_accepted km s u hacc, hc,
    recordLocation_moved km _ _ _ _ (hl ▸ h0) (hl ▸ hd)]
  dsimp only at p9
  rw [p9, f7]

theorem updateGateway_eq_new (km : ℚ → ℚ → ℚ → ℚ → ℚ) (s : State) (u : TtnMapperGateway)
    (hacc : accepts s u = true) (h0 : (getGatewayLastLocation s u).ID = 0) :
    updateGateway km s u =
      updateGatewayLocation
        (insertNewLocationForGateway
          { persistLastHeard
              { (getGatewayDbId s u).2 with processedGateways := s.processedGateways + 1 }
              (getGatewayDbId s u).1 u.Time u with
            newGateways := s.newGateways + 1 }
          (candidate s u) u.Time)
        (getGatewayDbId s u).1 u.Time (candidate s u) := by
  obtain ⟨f1, f2, f3, f4, f5, f6, f7⟩ := getGatewayDbId_frame s u
  obtain ⟨p1, p2, p3, p4, p5, p6, p7, p8, p9⟩ := persistLastHeard_frame
    { (getGatewayDbId s u).2 with processedGateways := s.processedGateways + 1 }
    (getGatewayDbId s u).1 u.Time u
  have hc : candidate (persistLastHeard
      { (getGatewayDbId s u).2 with processedGateways := s.processedGateways + 1 }
      (getGatewayDbId s u).1 u.Time u) u = candidate s u :=
    candidate_congr s _ u (p4.trans f3)
  obtain ⟨k1, k2, -⟩ := candidate_fields s u
  have hl : getGatewayLastLocation (persistLastHeard
      { (getGatewayDbId s u).2 with processedGateways := s.processedGateways + 1 }
      (getGatewayDbId s u).1 u.Time u) (candidate s u) = getGatewayLastLocation s u :=
    getGatewayLastLocation_congr s _ u _ (p2.trans f1) k1 k2
  rw [updateGateway_accepted km s u hacc, hc, recordLocation_new km _ _ _ _ (hl ▸ h0)]
  dsimp only at p8
  rw [p8, f6]

theorem candidate_of_valid (s : State) (u : TtnMapperGateway)
    (hforce : (isCoordinatesForced s u).1 = false) (hv : coordinatesValid u = true) :
    candidate s u = u := by
  rw [candidate_unforced s u hforce]
  unfold zeroInvalidCoordinates
  rw [hv]
  rfl

/-! ### A run with a blank gateway identifier -/

theorem updateGateway_emptyState :
    updateGateway gridKm (emptyState []) (sampleUpdate 1000 40 40) = stateOne := by
  have hc : candidate (emptyState []) (sampleUpdate 1000 40 40) = sampleUpdate 1000 40 40 :=
    candidate_of_valid _ _ (by rfl) (by
      rw [← Bool.not_eq_false, coordinatesValid_eq_false_iff]
      norm_num [sampleUpdate, abs_lt, lt_abs])
  rw [updateGateway_eq_new gridKm (emptyState []) (sampleUpdate 1000 40 40) rfl rfl, hc]
  rfl

theorem updateGateway_stateOne :
    updateGateway gridKm stateOne (blankUpdate 2000 41 41) = stateTwo := by
  have hc : candidate stateOne (blankUpdate 2000 41 41) = blankUpdate 2000 41 41 :=
    candidate_of_valid _ _ (by rfl) (by
      rw [← Bool.not_eq_false, coordinatesValid_eq_false_iff]
      norm_num [blankUpdate, abs_lt, lt_abs])
  have hl : getGatewayLastLocation stateOne (blankUpdate 2000 41 41) =
      ⟨1, "thethingsnetwork.org", "eui-1", 1000, 40, 40⟩ := rfl
  rw [updateGateway_eq_moved gridKm stateOne (blankUpdate 2000 41 41) rfl (by rw [hl]; decide)
    (by rw [hl, hc]; norm_num [gridKm, blankUpdate, abs_of_neg]), hc]
  rfl

theorem updateGateway_stateTwo :
    updateGateway gridKm stateTwo (sampleUpdate 3000 42 42) = stateThree := by
  have hc : candidate stateTwo (sampleUpdate 3000 42 42) = sampleUpdate 3000 42 42 :=
    candidate_of_valid _ _ (by rfl) (by
      rw [← Bool.not_eq_false, coordinatesValid_eq_false_iff]
      norm_num [sampleUpdate, abs_lt, lt_abs])
  have hl : getGatewayLastLocation stateTwo (sampleUpdate 3000 42 42) =
      ⟨1, "thethingsnetwork.org", "eui-1", 1000, 40, 40⟩ := rfl
  rw [updateGateway_eq_moved gridKm stateTwo (sampleUpdate 3000 42 42) rfl (by rw [hl]; decide)
    (by rw [hl, hc]; norm_num [gridKm, sampleUpdate, abs_of_neg]), hc]
  rfl

theorem runUpdates_stateOne :
    runUpdates gridKm (emptyState []) [sampleUpdate 1000 40 40] = stateOne := by
  simp only [runUpdates, List.foldl, updateGateway_emptyState]

theorem runUpdates_stateTwo :
    runUpdates gridKm (emptyState []) [sampleUpdate 1000 40 40, blankUpdate 2000 41 41] =
      stateTwo := by
  simp only [runUpdates, List.foldl, updateGateway_emptyState, updateGateway_stateOne]

theorem runUpdates_stateThree :
    runUpdates gridKm (emptyState [])
      [sampleUpdate 1000 40 40, blankUpdate 2000 41 41, sampleUpdate 3000 42 42] =
      stateThree := by
  simp only [runUpdates, List.foldl, updateGateway_emptyState, updateGateway_stateOne,
    updateGateway_stateTwo]

/-! ## The claims -/

/-- C1, as the code has it. When the lookup of the force table for the update's identifiers
returns the row `f` (for non-blank identifiers: the first force row of the update's
identity), an accepted update goes on with a pair that does not depend on the reported
coordinates: with the forced pair if `coordinatesValid` accepts the forced pair, and with
(0, 0) if it rejects it. -/
theorem C1_forced_pair_is_validated_then_used (km : ℚ → ℚ → ℚ → ℚ → ℚ) (s : State)
    (u : TtnMapperGateway) (f : GatewayLocationForce)
    (hacc : accepts s u = true)
    (hf : s.gatewayLocationForces.find?
      (fun f => whereMatches u.NetworkId u.GatewayId f.NetworkId f.GatewayId) = some f)
    (hid : f.ID ≠ 0) :
    (coordinatesValid { u with Latitude := f.Latitude, Longitude := f.Longitude } = true →
      ProceedsWith km s u f.Latitude f.Longitude) ∧
    (coordinatesValid { u with Latitude := f.Latitude, Longitude := f.Longitude } = false →
      ProceedsWith km s u 0 0) ∧
    (∀ w : TtnMapperGateway,
      coordinatesValid { w with Latitude := f.Latitude, Longitude := f.Longitude } =
        coordinatesValid { u with Latitude := f.Latitude, Longitude := f.Longitude }) := by
  refine ⟨?_, ?_, fun w => by simp only [coordinatesValid]⟩
  · intro hv
    apply proceedsWith_of_candidate km s u _ _ hacc
    rw [candidate_forced s u f hf hid]
    unfold zeroInvalidCoordinates
    rw [hv]
    rfl
  · intro hv
    apply proceedsWith_of_candidate km s u _ _ hacc
    rw [candidate_forced s u f hf hid]
    unfold zeroInvalidCoordinates
    rw [hv]
    rfl

/-- C1 witness: the gateway of the sample store is forced to (10, 10) and reports (40, 40). -/
theorem C1_forced_pair_is_validated_then_used_witness :
    ProceedsWith gridKm (sampleState [sampleForce 10 10]) (sampleUpdate 2000 40 40) 10 10 :=
  (C1_forced_pair_is_validated_then_used gridKm (sampleState [sampleForce 10 10])
    (sampleUpdate 2000 40 40) (sampleForce 10 10) (accepts_sampleState _ _ _)
    (by simp [sampleState, sampleForce, sampleUpdate, whereMatches]) (by decide)).1
    (by rw [← Bool.not_eq_false, coordinatesValid_eq_false_iff]
        norm_num [sampleUpdate, sampleForce, abs_lt, lt_abs])

/-- C1 counterexample: a new gateway is forced to (0.5, 0.5), which the validator rejects, and
reports (40, 40). The pair that reaches movement detection, the history row and the gateway
row is (0, 0), not the forced pair. -/
theorem C1_forced_pair_replaced_by_sentinel :
    isCoordinatesForced (emptyState [sampleForce 0.5 0.5]) (sampleUpdate 2000 40 40) =
      (true, sampleForce 0.5 0.5) ∧
    accepts (emptyState [sampleForce 0.5 0.5]) (sampleUpdate 2000 40 40) = true ∧
    candidate (emptyState [sampleForce 0.5 0.5]) (sampleUpdate 2000 40 40) =
      sampleUpdate 2000 0 0 ∧
    (candidate (emptyState [sampleForce 0.5 0.5]) (sampleUpdate 2000 40 40)).Latitude ≠
      (sampleForce 0.5 0.5).Latitude ∧
    (updateGateway gridKm (emptyState [sampleForce 0.5 0.5])
      (sampleUpdate 2000 40 40)).gatewayLocations =
      [⟨1, "thethingsnetwork.org", "eui-1", 2000, 0, 0⟩] ∧
    (updateGateway gridKm (emptyState [sampleForce 0.5 0.5])
      (sampleUpdate 2000 40 40)).gateways.map (fun g => (g.Latitude, g.Longitude)) =
      [(some 0, some 0)] := by
  have hv : coordinatesValid { sampleUpdate 2000 40 40 with
      Latitude := (sampleForce 0.5 0.5).Latitude,
      Longitude := (sampleForce 0.5 0.5).Longitude } = false := by
    rw [coordinatesValid_eq_false_iff]
    norm_num [sampleUpdate, sampleForce, abs_lt]
  have hc : candidate (emptyState [sampleForce 0.5 0.5]) (sampleUpdate 2000 40 40) =
      sampleUpdate 2000 0 0 := by
    rw [candidate_forced _ _ (sampleForce 0.5 0.5)
      (by simp [emptyState, sampleForce, sampleUpdate, whereMatches]) (by decide)]
    unfold zeroInvalidCoordinates
    rw [hv]
    rfl
  have hacc := accepts_emptyState [sampleForce 0.5 0.5] 40 40
  have h0 : (getGatewayLastLocation (emptyState [sampleForce 0.5 0.5])
      (sampleUpdate 2000 40 40)).ID = 0 := rfl
  obtain ⟨φ, hφ, e1, -, -, -, -, -, hcase⟩ := updateGateway_accepted_shape gridKm _ _ hacc
  rcases hcase with ⟨h, -⟩ | ⟨-, l1, -, hrow⟩
  · exact absurd h0 h
  · refine ⟨by simp [isCoordinatesForced, emptyState, sampleForce, sampleUpdate, whereMatches], hacc, hc,
      by rw [hc]; norm_num [sampleUpdate, sampleForce], ?_, ?_⟩
    · rw [l1, hc]
      rfl
    · rw [e1]
      have hid : (getGatewayDbId (emptyState [sampleForce 0.5 0.5])
          (sampleUpdate 2000 40 40)) = (1, _) := rfl
      have hg : (getGatewayDbId (emptyState [sampleForce 0.5 0.5])
          (sampleUpdate 2000 40 40)).2.gateways =
          [newGatewayRow 1 "thethingsnetwork.org" "eui-1"] := rfl
      rw [hg]
      have := hrow (newGatewayRow 1 "thethingsnetwork.org" "eui-1") rfl
      rw [hc] at this
      simp only [List.map_cons, List.map_nil, this.1, this.2]
      rfl

/-- C2. Let `g` be the `gateways` row of the update's identity: the row the store returns for
the update's identifiers and for its own key, and the row the identity cache points to if it
has the identity. When the event time is not after the last accepted time of `g` (the cached
last-heard time on a cache hit, whatever the row says; the stored one on a miss),
`updateGateway` adds one to the processed counter and leaves both tables, their key
sequences, the force table, the last-heard cache and the new and moved counters as they
were. -/
theorem C2_stale_update_only_counts (km : ℚ → ℚ → ℚ → ℚ → ℚ) (s : State) (u : TtnMapperGateway)
    (g : Gateway)
    (hrow : s.gateways.find?
      (fun g => whereMatches u.NetworkId u.GatewayId g.NetworkId g.GatewayId) = some g)
    (hkey : s.gateways.find? (fun h => decide (h.ID = g.ID)) = some g)
    (hcache : ∀ id, cacheLoad s.gatewayDbIdCache ⟨u.NetworkId, u.GatewayId⟩ = some id →
      id = g.ID)
    (hstale : u.Time ≤ (cacheLoad s.gatewayLastHeardCache g.ID).getD g.LastHeard) :
    (updateGateway km s u).processedGateways = s.processedGateways + 1 ∧
    (updateGateway km s u).gateways = s.gateways ∧
    (updateGateway km s u).gatewaySeq = s.gatewaySeq ∧
    (updateGateway km s u).gatewayLocations = s.gatewayLocations ∧
    (updateGateway km s u).gatewayLocationSeq = s.gatewayLocationSeq ∧
    (updateGateway km s u).gatewayLocationForces = s.gatewayLocationForces ∧
    (updateGateway km s u).gatewayLastHeardCache = s.gatewayLastHeardCache ∧
    (updateGateway km s u).newGateways = s.newGateways ∧
    (updateGateway km s u).movedGateways = s.movedGateways := by
  have hid : (getGatewayDbId s u).1 = g.ID ∧ (getGatewayDbId s u).2.gateways = s.gateways ∧
      (getGatewayDbId s u).2.gatewaySeq = s.gatewaySeq := by
    rcases getGatewayDbId_cases s u with ⟨id, hc, he⟩ | ⟨-, g', hf, he⟩ | ⟨-, hf, -⟩
    · rw [he]
      exact ⟨hcache id hc, rfl, rfl⟩
    · rw [he]
      rw [hrow] at hf
      exact ⟨congrArg Gateway.ID (Option.some.inj hf).symm, rfl, rfl⟩
    · rw [hrow] at hf
      exact absurd hf (by simp)
  obtain ⟨r1, r2, r3⟩ := hid
  obtain ⟨f1, f2, f3, f4, f5, f6, f7⟩ := getGatewayDbId_frame s u
  have hacc : accepts s u = false := by
    unfold accepts isLastHeardNewer dbFirstGatewayById
    rw [r1, f4, r2]
    cases hc : cacheLoad s.gatewayLastHeardCache g.ID with
    | some i =>
      rw [hc] at hstale
      exact decide_eq_false (not_lt.mpr hstale)
    | none =>
      rw [hc] at hstale
      simp only [hkey]
      exact decide_eq_false (not_lt.mpr hstale)
  rw [updateGateway_stale km s u hacc]
  exact ⟨rfl, r2, r3, f1, f2, f3, f4, f6, f7⟩

/-- C2 witness: the row of the sample gateway says 1000 and the cache says 5000; an update of
time 3000, later than the row and earlier than the cache, only counts as processed. -/
theorem C2_stale_update_only_counts_witness :
    (updateGateway gridKm warmState (sampleUpdate 3000 40 40)).processedGateways = 2 ∧
    (updateGateway gridKm warmState (sampleUpdate 3000 40 40)).gateways = [sampleRow] ∧
    (updateGateway gridKm warmState (sampleUpdate 3000 40 40)).gatewayLocations =
      [sampleLocation] ∧
    (updateGateway gridKm warmState (sampleUpdate 3000 40 40)).gatewayLastHeardCache =
      [(1, 5000)] :=
  have h := C2_stale_update_only_counts gridKm warmState (sampleUpdate 3000 40 40)
    sampleRow (by rfl) (by rfl)
    (by intro id h; exact absurd h (by simp [warmState, sampleState, cacheLoad]))
    (by decide)
  ⟨h.1, h.2.1, h.2.2.2.1, h.2.2.2.2.2.2.1⟩

/-- C3 at a blank gateway identifier. After the update of `eui-1` with time 1000 has run on
the empty store, neither table has a row for the identity with the blank gateway identifier.
The lookup of `getGatewayDbId` still resolves that identity to key 1, the row of `eui-1`: a
first update for it with time 500 is turned away as stale, and one with time 2000 is accepted
but counted as moved and not as new. -/
theorem C3_blank_gateway_id_is_not_new :
    runUpdates gridKm (emptyState []) [sampleUpdate 1000 40 40] = stateOne ∧
    (∀ g ∈ stateOne.gateways, ¬ (g.NetworkId = (blankUpdate 500 41 41).NetworkId ∧
      g.GatewayId = (blankUpdate 500 41 41).GatewayId)) ∧
    (∀ r ∈ stateOne.gatewayLocations, ¬ (r.NetworkId = (blankUpdate 500 41 41).NetworkId ∧
      r.GatewayId = (blankUpdate 500 41 41).GatewayId)) ∧
    (getGatewayDbId stateOne (blankUpdate 500 41 41)).1 = 1 ∧
    accepts stateOne (blankUpdate 500 41 41) = false ∧
    (updateGateway gridKm stateOne (blankUpdate 500 41 41)).newGateways = stateOne.newGateways ∧
    (updateGateway gridKm stateOne (blankUpdate 500 41 41)).gatewayLocations =
      stateOne.gatewayLocations ∧
    accepts stateOne (blankUpdate 2000 41 41) = true ∧
    (updateGateway gridKm stateOne (blankUpdate 2000 41 41)).newGateways = stateOne.newGateways ∧
    (updateGateway gridKm stateOne (blankUpdate 2000 41 41)).movedGateways =
      stateOne.movedGateways + 1 := by
  have hstale := updateGateway_stale gridKm stateOne (blankUpdate 500 41 41) rfl
  refine ⟨runUpdates_stateOne, by decide, by decide, rfl, rfl, ?_, ?_, rfl, ?_, ?_⟩
  · rw [hstale]; rfl
  · rw [hstale]; rfl
  · rw [updateGateway_stateOne]; rfl
  · rw [updateGateway_stateOne]; rfl

/-- C4. Running `updateGateway` on the same update twice in a row: the second run is turned
away as stale, and the state after it is the state after the first run with the processed
counter one higher. -/
theorem C4_replay_is_stale (km : ℚ → ℚ → ℚ → ℚ → ℚ) (s : State) (u : TtnMapperGateway) :
    accepts (updateGateway km s u) u = false ∧
    updateGateway km (updateGateway km s u) u =
      { updateGateway km s u with
        processedGateways := (updateGateway km s u).processedGateways + 1 } :=
  updateGateway_twice km s u

/-- C5. `coordinatesValid` is false exactly when the pair lies in the null-island box, or the
latitude or the longitude is out of range, or the pair is one of the three placeholder pairs;
it is true on every other pair; and it depends on latitude and longitude only. -/
theorem C5_coordinatesValid_rules (g : TtnMapperGateway) :
    (coordinatesValid g = false ↔
      ((|g.Latitude| < 1 ∧ |g.Longitude| < 1) ∨ |g.Latitude| > 90 ∨ |g.Longitude| > 180 ∨
        (g.Latitude = 52.0 ∧ g.Longitude = 6.0) ∨ (g.Latitude = 10.0 ∧ g.Longitude = 20.0) ∨
        (g.Latitude = 50.008724 ∧ g.Longitude = 36.215805))) ∧
    (¬ ((|g.Latitude| < 1 ∧ |g.Longitude| < 1) ∨ |g.Latitude| > 90 ∨ |g.Longitude| > 180 ∨
        (g.Latitude = 52.0 ∧ g.Longitude = 6.0) ∨ (g.Latitude = 10.0 ∧ g.Longitude = 20.0) ∨
        (g.Latitude = 50.008724 ∧ g.Longitude = 36.215805)) → coordinatesValid g = true) ∧
    (∀ g' : TtnMapperGateway, g'.Latitude = g.Latitude → g'.Longitude = g.Longitude →
      coordinatesValid g' = coordinatesValid g) := by
  refine ⟨coordinatesValid_eq_false_iff g, ?_, ?_⟩
  · intro h
    rw [← Bool.not_eq_false, coordinatesValid_eq_false_iff]
    exact h
  · intro g' h1 h2
    simp only [coordinatesValid, h1, h2]

/-- C6 at a blank gateway identifier. The empty store receives `eui-1` at (40, 40), the blank
identifier at (41, 41) and `eui-1` at (42, 42). The only location row of the blank identity
is then row 2 at (41, 41). A further update of that identity, again at (41, 41) and so at
distance 0 from its own last row, is compared with row 3 of `eui-1` instead, the latest row
of the network, and is counted and recorded as moved. -/
theorem C6_blank_gateway_id_measures_from_other_gateway :
    runUpdates gridKm (emptyState [])
      [sampleUpdate 1000 40 40, blankUpdate 2000 41 41, sampleUpdate 3000 42 42] = stateThree ∧
    accepts stateThree (blankUpdate 4000 41 41) = true ∧
    candidate stateThree (blankUpdate 4000 41 41) = blankUpdate 4000 41 41 ∧
    stateThree.gatewayLocations.filter (fun r =>
        decide (r.NetworkId = (blankUpdate 4000 41 41).NetworkId ∧
          r.GatewayId = (blankUpdate 4000 41 41).GatewayId)) =
      [⟨2, "thethingsnetwork.org", "", 2000, 41, 41⟩] ∧
    gridKm 41 41 41 41 ≤ 0.1 ∧
    getGatewayLastLocation stateThree (blankUpdate 4000 41 41) =
      ⟨3, "thethingsnetwork.org", "eui-1", 3000, 42, 42⟩ ∧
    (updateGateway gridKm stateThree (blankUpdate 4000 41 41)).movedGateways =
      stateThree.movedGateways + 1 ∧
    (updateGateway gridKm stateThree (blankUpdate 4000 41 41)).gatewayLocations =
      stateThree.gatewayLocations ++ [⟨4, "thethingsnetwork.org", "", 4000, 41, 41⟩] := by
  have hc : candidate stateThree (blankUpdate 4000 41 41) = blankUpdate 4000 41 41 :=
    candidate_of_valid _ _ (by rfl) (by
      rw [← Bool.not_eq_false, coordinatesValid_eq_false_iff]
      norm_num [blankUpdate, abs_lt, lt_abs])
  have hl : getGatewayLastLocation stateThree (blankUpdate 4000 41 41) =
      ⟨3, "thethingsnetwork.org", "eui-1", 3000, 42, 42⟩ := rfl
  have hstep := updateGateway_eq_moved gridKm stateThree (blankUpdate 4000 41 41) rfl
    (by rw [hl]; decide) (by rw [hl, hc]; norm_num [gridKm, blankUpdate, abs_of_pos])
  rw [hc] at hstep
  refine ⟨runUpdates_stateThree, rfl, hc, by decide, by norm_num [gridKm], hl, ?_, ?_⟩
  · rw [hstep]; rfl
  · rw [hstep]; rfl

/-- C7 at a blank gateway identifier. The force table has one row, for `eui-1`, with the
pair (10, 10), and the store is empty. An update with a blank gateway identifier reports the
placeholder pair (52, 6): no force row has its identity and `coordinatesValid` rejects its
pair, yet `isCoordinatesForced` returns the row of `eui-1` and the update goes on with
(10, 10), not with (0, 0). -/
theorem C7_blank_gateway_id_takes_other_force_row :
    (∀ f ∈ (emptyState [sampleForce 10 10]).gatewayLocationForces,
      ¬ (f.NetworkId = (blankUpdate 2000 52 6).NetworkId ∧
        f.GatewayId = (blankUpdate 2000 52 6).GatewayId)) ∧
    coordinatesValid (blankUpdate 2000 52 6) = false ∧
    accepts (emptyState [sampleForce 10 10]) (blankUpdate 2000 52 6) = true ∧
    isCoordinatesForced (emptyState [sampleForce 10 10]) (blankUpdate 2000 52 6) =
      (true, sampleForce 10 10) ∧
    candidate (emptyState [sampleForce 10 10]) (blankUpdate 2000 52 6) =
      blankUpdate 2000 10 10 ∧
    (updateGateway gridKm (emptyState [sampleForce 10 10])
      (blankUpdate 2000 52 6)).gatewayLocations =
      [⟨1, "thethingsnetwork.org", "", 2000, 10, 10⟩] := by
  have hc : candidate (emptyState [sampleForce 10 10]) (blankUpdate 2000 52 6) =
      blankUpdate 2000 10 10 := by
    rw [candidate_forced _ _ (sampleForce 10 10) (by rfl) (by decide)]
    have hv : coordinatesValid { blankUpdate 2000 52 6 with
        Latitude := (sampleForce 10 10).Latitude,
        Longitude := (sampleForce 10 10).Longitude } = true := by
      rw [← Bool.not_eq_false, coordinatesValid_eq_false_iff]
      norm_num [blankUpdate, sampleForce, abs_lt, lt_abs]
    unfold zeroInvalidCoordinates
    rw [hv]
    rfl
  have hstep := updateGateway_eq_new gridKm (emptyState [sampleForce 10 10])
    (blankUpdate 2000 52 6) rfl rfl
  rw [hc] at hstep
  refine ⟨by decide, ?_, rfl, rfl, hc, ?_⟩
  · rw [coordinatesValid_eq_false_iff]
    norm_num [blankUpdate]
  · rw [hstep]; rfl

/-- C8, as the code has it. When the last-heard cache has no entry for a key whose row is `g`,
`isLastHeardNewer` says whether the candidate time is strictly after the stored last-heard
time of `g`, and it writes nothing: the state is the same afterwards and the cache still has
no entry for that key. -/
theorem C8_cache_miss_reads_store (s : State) (gatewayDbId : Nat) (lastHeard : Int)
    (g : Gateway)
    (hmiss : cacheLoad s.gatewayLastHeardCache gatewayDbId = none)
    (hrow : s.gateways.find? (fun g => decide (g.ID = gatewayDbId)) = some g) :
    (isLastHeardNewer s gatewayDbId lastHeard).1 = decide (g.LastHeard < lastHeard) ∧
    (isLastHeardNewer s gatewayDbId lastHeard).2 = s ∧
    cacheLoad (isLastHeardNewer s gatewayDbId lastHeard).2.gatewayLastHeardCache gatewayDbId =
      none := by
  refine ⟨?_, isLastHeardNewer_state s _ _, ?_⟩
  · unfold isLastHeardNewer dbFirstGatewayById
    simp only [hmiss, hrow]
  · rw [isLastHeardNewer_state]
    exact hmiss

/-- C8 witness: the sample store with its cold cache. -/
theorem C8_cache_miss_reads_store_witness :
    (isLastHeardNewer (sampleState []) 1 2000).1 = decide (sampleRow.LastHeard < 2000) ∧
    (isLastHeardNewer (sampleState []) 1 2000).2 = sampleState [] ∧
    cacheLoad (isLastHeardNewer (sampleState []) 1 2000).2.gatewayLastHeardCache 1 = none :=
  C8_cache_miss_reads_store (sampleState []) 1 2000 sampleRow rfl
    (by simp [sampleState, sampleRow])

/-- C8 counterexample: on the sample store the key 1 has no cache entry and its row was last
heard at 1000; after `isLastHeardNewer` the cache does not hold 1000 for key 1. -/
theorem C8_cache_not_filled_on_miss :
    cacheLoad (sampleState []).gatewayLastHeardCache 1 = none ∧
    (dbFirstGatewayById (sampleState []) 1).LastHeard = 1000 ∧
    cacheLoad (isLastHeardNewer (sampleState []) 1 2000).2.gatewayLastHeardCache 1 ≠
      some 1000 := by
  refine ⟨rfl, ?_, ?_⟩
  · simp [dbFirstGatewayById, sampleState, sampleRow]
  · rw [isLastHeardNewer_state]
    simp [sampleState, cacheLoad]

/-- C9. Whatever the state and the update, the `gateways` table after `updateGateway` is the
table before with each row `g` replaced by a row `φ g` of the same key, followed by at most
new rows. In `φ g` each of hardware identifier, description, altitude, location accuracy and
location source is the stored value of `g` whenever the update's field is absent (empty
string, or 0), and otherwise is either the stored value or the update's non-default value. -/
theorem C9_absent_fields_keep_stored_values (km : ℚ → ℚ → ℚ → ℚ → ℚ) (s : State)
    (u : TtnMapperGateway) :
    ∃ (φ : Gateway → Gateway) (extra : List Gateway),
      (updateGateway km s u).gateways = s.gateways.map φ ++ extra ∧
      ∀ g, (φ g).ID = g.ID ∧
        (u.GatewayEui = "" → (φ g).GatewayEui = g.GatewayEui) ∧
        ((φ g).GatewayEui = g.GatewayEui ∨
          (u.GatewayEui ≠ "" ∧ (φ g).GatewayEui = some u.GatewayEui)) ∧
        (u.Description = "" → (φ g).Description = g.Description) ∧
        ((φ g).Description = g.Description ∨
          (u.Description ≠ "" ∧ (φ g).Description = some u.Description)) ∧
        (u.Altitude = 0 → (φ g).Altitude = g.Altitude) ∧
        ((φ g).Altitude = g.Altitude ∨ (u.Altitude ≠ 0 ∧ (φ g).Altitude = some u.Altitude)) ∧
        (u.LocationAccuracy = 0 → (φ g).LocationAccuracy = g.LocationAccuracy) ∧
        ((φ g).LocationAccuracy = g.LocationAccuracy ∨
          (u.LocationAccuracy ≠ 0 ∧ (φ g).LocationAccuracy = some u.LocationAccuracy)) ∧
        (u.LocationSource = "" → (φ g).LocationSource = g.LocationSource) ∧
        ((φ g).LocationSource = g.LocationSource ∨
          (u.LocationSource ≠ "" ∧ (φ g).LocationSource = some u.LocationSource)) := by
  obtain ⟨φ, extra, e, hφ, -⟩ := updateGateway_rows km s u
  refine ⟨φ, extra, e, fun g => ?_⟩
  obtain ⟨k, a1, a2, a3, a4, a5⟩ := hφ g
  exact ⟨k, fun h => a1.elim id (fun x => absurd h x.1), a1,
    fun h => a2.elim id (fun x => absurd h x.1), a2,
    fun h => a3.elim id (fun x => absurd h x.1), a3,
    fun h => a4.elim id (fun x => absurd h x.1), a4,
    fun h => a5.elim id (fun x => absurd h x.1), a5⟩

/-- C10 at a blank gateway identifier. After `eui-1` at time 1000 and the blank identifier at
time 2000 have run on the empty store, the history holds a row of the blank identity while
the `gateways` table has no row of that identity, so there is no stored last-heard time of
that identity to bound it. After `eui-1` at time 3000 as well, the row of the blank identity
that was appended last is row 2, and `getGatewayLastLocation` returns row 3 for it. -/
theorem C10_blank_gateway_id_breaks_history :
    runUpdates gridKm (emptyState []) [sampleUpdate 1000 40 40, blankUpdate 2000 41 41] =
      stateTwo ∧
    (⟨2, "thethingsnetwork.org", "", 2000, 41, 41⟩ : GatewayLocation) ∈
      stateTwo.gatewayLocations ∧
    (¬ ∃ g ∈ stateTwo.gateways, g.NetworkId = "thethingsnetwork.org" ∧ g.GatewayId = "") ∧
    runUpdates gridKm (emptyState [])
      [sampleUpdate 1000 40 40, blankUpdate 2000 41 41, sampleUpdate 3000 42 42] = stateThree ∧
    (stateThree.gatewayLocations.filter (fun r =>
        decide (r.NetworkId = "thethingsnetwork.org" ∧ r.GatewayId = ""))).getLast? =
      some ⟨2, "thethingsnetwork.org", "", 2000, 41, 41⟩ ∧
    getGatewayLastLocation stateThree (blankUpdate 4000 41 41) =
      ⟨3, "thethingsnetwork.org", "eui-1", 3000, 42, 42⟩ := by
  refine ⟨runUpdates_stateTwo, by decide, by decide, runUpdates_stateThree, by decide, rfl⟩

end GatewayUpdate
